import Mathlib

/-!
Shallow embedding of the WhatsApp bot session lifecycle manager of this
repository (src/server/services/email.ts, lines 45-155): the in-memory
session registry (a JS Map keyed by sessionId), the pairing coordinator
createWhatsAppBot, the connection.update event handler installed by it,
and the facade operations getSessionStatus, disconnectBot and
getActiveSessions.

Modelling choices:
  - The JS Map is an association list whose set operation replaces the
    value in place when the key is present and appends otherwise, which
    is exactly the JS Map.set behaviour.
  - The promise returned by createWhatsAppBot is a one-shot cell
    (PromiseState): resolve and reject settle it only when it is still
    pending, as JS promises do.
  - The asynchronous transport is modelled by an explicit list of
    connection events processed in emission order (the event loop is
    single threaded, so the order of the list is the order of time);
    the 10 second QR timer of the call appears in that list as the
    qrTimeoutFire event at the position its deadline gives it.
  - makeWASocket can throw; the socketResult parameter is some handle
    when it returns a socket and none when it throws, in which case the
    promise executor aborts before the registry write and the timer.
  - setTimeout bookkeeping is modelled by the scheduled list: the close
    handler appends a recreate task with its 5000 ms delay, and
    createWhatsAppBot appends the 10000 ms QR timeout task.
  - socket.end() is modelled by appending the handle to closedSockets.
  - The filesystem side effect of createWhatsAppBot is modelled by the
    fs list of existing directories and the ensureAuthDir operation.
-/

/-- Baileys DisconnectReason.loggedOut status code (HTTP 401), the value
compared against in the close branch of the connection.update handler. -/
def DisconnectReason_loggedOut : Nat := 401

/-- The BotSession interface (email.ts lines 50-56). The socket field is
an opaque handle, modelled by a Nat identity. -/
structure BotSession where
  sessionId : String
  socket : Nat
  qrCode : Option String
  isConnected : Bool
  userId : String
deriving Repr, DecidableEq

/-- JS Map.get on the registry association list. -/
def mapGet : List (String × BotSession) → String → Option BotSession
  | [], _ => none
  | (k1, v1) :: rest, k => if k1 = k then some v1 else mapGet rest k

/-- JS Map.set on the registry association list: replaces in place when
the key is present, appends otherwise. -/
def mapSet : List (String × BotSession) → String → BotSession → List (String × BotSession)
  | [], k, v => [(k, v)]
  | (k1, v1) :: rest, k, v =>
      if k1 = k then (k, v) :: rest else (k1, v1) :: mapSet rest k v

/-- JS Map.delete on the registry association list. -/
def mapDelete : List (String × BotSession) → String → List (String × BotSession)
  | [], _ => []
  | (k1, v1) :: rest, k =>
      if k1 = k then mapDelete rest k else (k1, v1) :: mapDelete rest k

/-- The in-place mutation session.isConnected = true performed by the
open branch of the connection.update handler (email.ts lines 113-116):
a no-op when the key is absent. -/
def setConnected : List (String × BotSession) → String → List (String × BotSession)
  | [], _ => []
  | (k1, v1) :: rest, k =>
      if k1 = k then (k1, { v1 with isConnected := true }) :: setConnected rest k
      else (k1, v1) :: setConnected rest k

/-- A pending setTimeout callback: either the reconnect re-creation
scheduled by the close handler (delay 5000 ms) or the QR timeout of a
createWhatsAppBot call (delay 10000 ms). -/
inductive ScheduledTask where
  | recreate (sessionName userId : String) (delayMs : Nat)
  | qrTimeout (sessionName userId : String) (delayMs : Nat)
deriving Repr, DecidableEq

/-- Process-wide state: the activeSessions Map, the pending timers, the
handles on which socket.end() was called, the working directory and the
set of directories existing on disk. -/
structure SysState where
  activeSessions : List (String × BotSession)
  scheduled : List ScheduledTask
  closedSockets : List Nat
  cwd : String
  fs : List String
deriving Repr, DecidableEq

/-- State at process start: empty registry, no timers, nothing on disk. -/
def initState : SysState :=
  { activeSessions := [], scheduled := [], closedSockets := [], cwd := "/app", fs := [] }

/-- Settlement state of the promise returned by one createWhatsAppBot
call. -/
inductive PromiseState where
  | pending
  | resolved (sessionId : String) (qrCode : Option String)
  | rejected (msg : String)
deriving Repr, DecidableEq

/-- resolve: settles the promise only when it is still pending. -/
def resolveP (p : PromiseState) (sessionId : String) (qrCode : Option String) : PromiseState :=
  match p with
  | .pending => .resolved sessionId qrCode
  | _ => p

/-- reject: settles the promise only when it is still pending. -/
def rejectP (p : PromiseState) (msg : String) : PromiseState :=
  match p with
  | .pending => .rejected msg
  | _ => p

/-- The variables captured by the closure of one createWhatsAppBot call:
its arguments, the qrCodeGenerated flag (email.ts line 81) and the
settlement state of its promise. -/
structure CallCtx where
  sessionName : String
  userId : String
  qrCodeGenerated : Bool
  promise : PromiseState
deriving Repr, DecidableEq

/-- The closure state right after the promise executor ran. -/
def initCtx (sessionName userId : String) : CallCtx :=
  { sessionName := sessionName, userId := userId, qrCodeGenerated := false, promise := .pending }

/-- sessionId derivation (email.ts line 65). -/
def mkSessionId (userId sessionName : String) : String :=
  userId ++ "-" ++ sessionName

/-- authDir derivation (email.ts line 66):
path.join(process.cwd(), "auth_sessions", sessionId). -/
def authDirOf (cwd sessionId : String) : String :=
  cwd ++ "/auth_sessions/" ++ sessionId

/-- fs.mkdirSync guarded by fs.existsSync (email.ts lines 69-71). -/
def ensureAuthDir (fs : List String) (d : String) : List String :=
  if d ∈ fs then fs else fs ++ [d]

/-- One event delivered to the call: a connection.update payload field
(qr, connection open, connection close with the Boom status code of
lastDisconnect) or the firing of the 10 second QR timer. -/
inductive ConnEvent where
  | qr (payload : String)
  | connOpen
  | connClose (statusCode : Nat)
  | qrTimeoutFire
deriving Repr, DecidableEq

/-- Whether the event is a qr artifact event. -/
def ConnEvent.isQr : ConnEvent → Bool
  | .qr _ => true
  | _ => false

/-- Whether the event is the QR timer firing. -/
def ConnEvent.isTimeoutFire : ConnEvent → Bool
  | .qrTimeoutFire => true
  | _ => false

/-- Whether the event is a close whose reason is the authenticated
logout status code. -/
def ConnEvent.isLogoutClose : ConnEvent → Bool
  | .connClose c => c = DisconnectReason_loggedOut
  | _ => false

/-- The connection.update handler of one call (email.ts lines 83-118)
together with the QR timeout callback (lines 131-135), as a transition
on the closure state and the process state. -/
def handleEvent (c : CallCtx) (st : SysState) (ev : ConnEvent) : CallCtx × SysState :=
  let sessionId := mkSessionId c.userId c.sessionName
  match ev with
  | .qr payload =>
      if c.qrCodeGenerated then (c, st)
      else ({ c with qrCodeGenerated := true,
                     promise := resolveP c.promise sessionId (some payload) }, st)
  | .connClose statusCode =>
      if statusCode = DisconnectReason_loggedOut then
        (c, { st with activeSessions := mapDelete st.activeSessions sessionId })
      else
        (c, { st with scheduled := st.scheduled ++ [.recreate c.sessionName c.userId 5000] })
  | .connOpen =>
      (c, { st with activeSessions := setConnected st.activeSessions sessionId })
  | .qrTimeoutFire =>
      if c.qrCodeGenerated then (c, st)
      else ({ c with promise := rejectP c.promise "Failed to generate QR code" }, st)

/-- Folds the handler over the events of the call in emission order. -/
def runEvents (p : CallCtx × SysState) (evs : List ConnEvent) : CallCtx × SysState :=
  evs.foldl (fun q ev => handleEvent q.1 q.2 ev) p

/-- The outcome of the synchronous part of createWhatsAppBot: either the
promise executor completed (handler installed, promise pending) or
makeWASocket threw and the promise is rejected with that error. -/
inductive CreateOutcome where
  | started (ctx : CallCtx)
  | failed (msg : String)
deriving Repr, DecidableEq

/-- createWhatsAppBot (email.ts lines 61-137), synchronous part: derives
the sessionId, ensures the auth directory, opens the socket, registers
the session in activeSessions and arms the 10000 ms QR timer. When
makeWASocket throws (socketResult = none) the executor aborts before the
registry write: no entry is created and no timer armed. -/
def createWhatsAppBot (sessionName userId : String) (socketResult : Option Nat)
    (st : SysState) : CreateOutcome × SysState :=
  let sessionId := mkSessionId userId sessionName
  let authDir := authDirOf st.cwd sessionId
  let st1 := { st with fs := ensureAuthDir st.fs authDir }
  match socketResult with
  | none => (.failed "makeWASocket threw", st1)
  | some sock =>
      (.started (initCtx sessionName userId),
       { st1 with
           activeSessions := mapSet st1.activeSessions sessionId
             { sessionId := sessionId, socket := sock, qrCode := none,
               isConnected := false, userId := userId },
           scheduled := st1.scheduled ++ [.qrTimeout sessionName userId 10000] })

/-- getSessionStatus (email.ts lines 139-141). -/
def getSessionStatus (sessionId : String) (st : SysState) : Option BotSession :=
  mapGet st.activeSessions sessionId

/-- disconnectBot (email.ts lines 143-151): ends the socket and deletes
the entry when present, returns whether a session existed. -/
def disconnectBot (sessionId : String) (st : SysState) : Bool × SysState :=
  match mapGet st.activeSessions sessionId with
  | some s =>
      (true, { st with activeSessions := mapDelete st.activeSessions sessionId,
                       closedSockets := st.closedSockets ++ [s.socket] })
  | none => (false, st)

/-- getActiveSessions (email.ts lines 153-155). -/
def getActiveSessions (st : SysState) : List BotSession :=
  st.activeSessions.map Prod.snd

/-- One step of the system: a createWhatsAppBot call (also the scheduled
re-creation running, which re-invokes the same routine), an event
delivered to some installed handler, or a disconnectBot call. -/
inductive Step : SysState → SysState → Prop where
  | create (n u : String) (r : Option Nat) (st : SysState) :
      Step st (createWhatsAppBot n u r st).2
  | event (c : CallCtx) (ev : ConnEvent) (st : SysState) :
      Step st (handleEvent c st ev).2
  | disconnect (sid : String) (st : SysState) :
      Step st (disconnectBot sid st).2

/-- States reachable from process start. -/
inductive Reachable : SysState → Prop where
  | init : Reachable initState
  | step {st st2 : SysState} : Reachable st → Step st st2 → Reachable st2

example : mkSessionId "user-1" "mybot" = "user-1-mybot" := by decide

example :
    (runEvents (initCtx "mybot" "user-1",
        (createWhatsAppBot "mybot" "user-1" (some 7) initState).2)
      [ConnEvent.qr "QR1", ConnEvent.qr "QR2"]).1.promise
    = PromiseState.resolved "user-1-mybot" (some "QR1") := by decide

/-! ### Registry lemmas -/

theorem mapGet_mapSet_self (m : List (String × BotSession)) (k : String) (v : BotSession) :
    mapGet (mapSet m k v) k = some v := by
  induction m with
  | nil => simp [mapSet, mapGet]
  | cons hd tl ih =>
      obtain ⟨k1, v1⟩ := hd
      by_cases h1 : k1 = k
      · simp [mapSet, mapGet, h1]
      · simp [mapSet, mapGet, h1, ih]

theorem mapGet_mapSet_ne (m : List (String × BotSession)) (k j : String) (v : BotSession)
    (h : j ≠ k) : mapGet (mapSet m k v) j = mapGet m j := by
  induction m with
  | nil => simp [mapSet, mapGet, Ne.symm h]
  | cons hd tl ih =>
      obtain ⟨k1, v1⟩ := hd
      by_cases h1 : k1 = k
      · have h2 : ¬ k1 = j := by
          rw [h1]
          exact Ne.symm h
        simp [mapSet, mapGet, h1, h2, Ne.symm h]
      · by_cases h2 : k1 = j
        · simp [mapSet, mapGet, h1, h2, h, ih]
        · simp [mapSet, mapGet, h1, h2, ih]

theorem mapGet_mapDelete_self (m : List (String × BotSession)) (k : String) :
    mapGet (mapDelete m k) k = none := by
  induction m with
  | nil => simp [mapDelete, mapGet]
  | cons hd tl ih =>
      obtain ⟨k1, v1⟩ := hd
      by_cases h1 : k1 = k
      · simp [mapDelete, mapGet, h1, ih]
      · simp [mapDelete, mapGet, h1, ih]

theorem mapGet_mapDelete_ne (m : List (String × BotSession)) (k j : String)
    (h : j ≠ k) : mapGet (mapDelete m k) j = mapGet m j := by
  induction m with
  | nil => simp [mapDelete, mapGet]
  | cons hd tl ih =>
      obtain ⟨k1, v1⟩ := hd
      by_cases h1 : k1 = k
      · have h2 : ¬ k1 = j := by
          rw [h1]
          exact Ne.symm h
        simp [mapDelete, mapGet, h1, h2, Ne.symm h, ih]
      · by_cases h2 : k1 = j
        · simp [mapDelete, mapGet, h1, h2, h, ih]
        · simp [mapDelete, mapGet, h1, h2, ih]

theorem mapGet_setConnected_self (m : List (String × BotSession)) (k : String) :
    mapGet (setConnected m k) k
      = (mapGet m k).map (fun s => { s with isConnected := true }) := by
  induction m with
  | nil => simp [setConnected, mapGet]
  | cons hd tl ih =>
      obtain ⟨k1, v1⟩ := hd
      by_cases h1 : k1 = k
      · simp [setConnected, mapGet, h1]
      · simp [setConnected, mapGet, h1, ih]

theorem mapGet_setConnected_ne (m : List (String × BotSession)) (k j : String)
    (h : j ≠ k) : mapGet (setConnected m k) j = mapGet m j := by
  induction m with
  | nil => simp [setConnected, mapGet]
  | cons hd tl ih =>
      obtain ⟨k1, v1⟩ := hd
      by_cases h1 : k1 = k
      · have h2 : ¬ k1 = j := by
          rw [h1]
          exact Ne.symm h
        simp [setConnected, mapGet, h1, h2, Ne.symm h, ih]
      · by_cases h2 : k1 = j
        · simp [setConnected, mapGet, h1, h2, h, ih]
        · simp [setConnected, mapGet, h1, h2, ih]

theorem mem_mapSet (m : List (String × BotSession)) (k : String) (v : BotSession)
    (p : String × BotSession) (hp : p ∈ mapSet m k v) : p = (k, v) ∨ p ∈ m := by
  induction m with
  | nil =>
      simp only [mapSet, List.mem_singleton] at hp
      exact Or.inl hp
  | cons hd tl ih =>
      obtain ⟨k1, v1⟩ := hd
      by_cases h1 : k1 = k
      · simp only [mapSet, if_pos h1, List.mem_cons] at hp
        rcases hp with h | h
        · exact Or.inl h
        · exact Or.inr (List.mem_cons_of_mem _ h)
      · simp only [mapSet, if_neg h1, List.mem_cons] at hp
        rcases hp with h | h
        · exact Or.inr (by simp [h])
        · rcases ih h with h2 | h2
          · exact Or.inl h2
          · exact Or.inr (List.mem_cons_of_mem _ h2)

theorem mem_mapDelete (m : List (String × BotSession)) (k : String)
    (p : String × BotSession) (hp : p ∈ mapDelete m k) : p ∈ m := by
  induction m with
  | nil => simp [mapDelete] at hp
  | cons hd tl ih =>
      obtain ⟨k1, v1⟩ := hd
      by_cases h1 : k1 = k
      · simp only [mapDelete, if_pos h1] at hp
        exact List.mem_cons_of_mem _ (ih hp)
      · simp only [mapDelete, if_neg h1, List.mem_cons] at hp
        rcases hp with h | h
        · simp [h]
        · exact List.mem_cons_of_mem _ (ih h)

theorem mem_setConnected (m : List (String × BotSession)) (k : String)
    (p : String × BotSession) (hp : p ∈ setConnected m k) :
    ∃ q ∈ m, p.1 = q.1 ∧ (p.2 = q.2 ∨ p.2 = { q.2 with isConnected := true }) := by
  induction m with
  | nil => simp [setConnected] at hp
  | cons hd tl ih =>
      obtain ⟨k1, v1⟩ := hd
      by_cases h1 : k1 = k
      · simp only [setConnected, if_pos h1, List.mem_cons] at hp
        rcases hp with h | h
        · exact ⟨(k1, v1), by simp, by simp [h]⟩
        · rcases ih h with ⟨q, hq, hfst, hsnd⟩
          exact ⟨q, List.mem_cons_of_mem _ hq, hfst, hsnd⟩
      · simp only [setConnected, if_neg h1, List.mem_cons] at hp
        rcases hp with h | h
        · exact ⟨(k1, v1), by simp, by simp [h]⟩
        · rcases ih h with ⟨q, hq, hfst, hsnd⟩
          exact ⟨q, List.mem_cons_of_mem _ hq, hfst, hsnd⟩

theorem keys_mapSet_mem (m : List (String × BotSession)) (k : String) (v : BotSession)
    (x : String) (hx : x ∈ (mapSet m k v).map Prod.fst) :
    x = k ∨ x ∈ m.map Prod.fst := by
  rcases List.mem_map.mp hx with ⟨p, hp, hpx⟩
  rcases mem_mapSet m k v p hp with h | h
  · subst h
    exact Or.inl hpx.symm
  · exact Or.inr (hpx ▸ List.mem_map_of_mem Prod.fst h)

theorem keys_mapSet_nodup (m : List (String × BotSession)) (k : String) (v : BotSession)
    (hm : (m.map Prod.fst).Nodup) : ((mapSet m k v).map Prod.fst).Nodup := by
  induction m with
  | nil => simp [mapSet]
  | cons hd tl ih =>
      obtain ⟨k1, v1⟩ := hd
      simp only [List.map_cons, List.nodup_cons] at hm
      by_cases h1 : k1 = k
      · subst h1
        simpa [mapSet] using hm
      · simp only [mapSet, if_neg h1, List.map_cons, List.nodup_cons]
        refine ⟨fun hmem => ?_, ih hm.2⟩
        rcases keys_mapSet_mem tl k v k1 hmem with h | h
        · exact h1 h
        · exact hm.1 h

theorem keys_mapDelete_mem (m : List (String × BotSession)) (k : String)
    (x : String) (hx : x ∈ (mapDelete m k).map Prod.fst) : x ∈ m.map Prod.fst := by
  rcases List.mem_map.mp hx with ⟨p, hp, hpx⟩
  exact hpx ▸ List.mem_map_of_mem Prod.fst (mem_mapDelete m k p hp)

theorem keys_mapDelete_nodup (m : List (String × BotSession)) (k : String)
    (hm : (m.map Prod.fst).Nodup) : ((mapDelete m k).map Prod.fst).Nodup := by
  induction m with
  | nil => simp [mapDelete]
  | cons hd tl ih =>
      obtain ⟨k1, v1⟩ := hd
      simp only [List.map_cons, List.nodup_cons] at hm
      by_cases h1 : k1 = k
      · simp only [mapDelete, if_pos h1]
        exact ih hm.2
      · simp only [mapDelete, if_neg h1, List.map_cons, List.nodup_cons]
        exact ⟨fun hmem => hm.1 (keys_mapDelete_mem tl k k1 hmem), ih hm.2⟩

theorem keys_setConnected (m : List (String × BotSession)) (k : String) :
    (setConnected m k).map Prod.fst = m.map Prod.fst := by
  induction m with
  | nil => simp [setConnected]
  | cons hd tl ih =>
      obtain ⟨k1, v1⟩ := hd
      by_cases h1 : k1 = k
      · simp [setConnected, h1, ih]
      · simp [setConnected, h1, ih]

/-! ### Registry invariant over reachable states -/

/-- Well-formedness of one registry entry: the stored sessionId equals
the Map key and no pairing artifact is stored in the entry. -/
def EntryWF (k : String) (s : BotSession) : Prop :=
  s.sessionId = k ∧ s.qrCode = none

/-- Registry invariant: keys are unique and every entry is well formed. -/
def RegWF (st : SysState) : Prop :=
  (st.activeSessions.map Prod.fst).Nodup ∧ ∀ p ∈ st.activeSessions, EntryWF p.1 p.2

theorem regWF_init : RegWF initState :=
  ⟨by simp [initState], by simp [initState]⟩

theorem regWF_create (n u : String) (r : Option Nat) (st : SysState) (h : RegWF st) :
    RegWF (createWhatsAppBot n u r st).2 := by
  obtain ⟨hnd, hwf⟩ := h
  cases r with
  | none => exact ⟨hnd, hwf⟩
  | some sock =>
      refine ⟨?_, ?_⟩
      · exact keys_mapSet_nodup _ _ _ hnd
      · intro p hp
        rcases mem_mapSet _ _ _ p hp with hcase | hcase
        · subst hcase
          exact ⟨rfl, rfl⟩
        · exact hwf p hcase

theorem regWF_event (c : CallCtx) (ev : ConnEvent) (st : SysState) (h : RegWF st) :
    RegWF (handleEvent c st ev).2 := by
  obtain ⟨hnd, hwf⟩ := h
  cases ev with
  | qr payload =>
      by_cases hq : c.qrCodeGenerated <;> simp [handleEvent, hq] <;> exact ⟨hnd, hwf⟩
  | connOpen =>
      refine ⟨?_, ?_⟩
      · show ((setConnected st.activeSessions _).map Prod.fst).Nodup
        rw [keys_setConnected]
        exact hnd
      · intro p hp
        rcases mem_setConnected _ _ p hp with ⟨q, hq, hfst, hsnd⟩
        obtain ⟨hq1, hq2⟩ := hwf q hq
        rcases hsnd with hcase | hcase
        · exact ⟨by rw [hcase, hq1, hfst], by rw [hcase, hq2]⟩
        · exact ⟨by rw [hcase]; simpa [hfst] using hq1, by rw [hcase]; simpa using hq2⟩
  | connClose code =>
      by_cases hc : code = DisconnectReason_loggedOut
      · simp only [handleEvent, if_pos hc]
        exact ⟨keys_mapDelete_nodup _ _ hnd, fun p hp => hwf p (mem_mapDelete _ _ p hp)⟩
      · simp only [handleEvent, if_neg hc]
        exact ⟨hnd, hwf⟩
  | qrTimeoutFire =>
      by_cases hq : c.qrCodeGenerated <;> simp [handleEvent, hq] <;> exact ⟨hnd, hwf⟩

theorem regWF_disconnect (sid : String) (st : SysState) (h : RegWF st) :
    RegWF (disconnectBot sid st).2 := by
  obtain ⟨hnd, hwf⟩ := h
  unfold disconnectBot
  cases hget : mapGet st.activeSessions sid with
  | none => exact ⟨hnd, hwf⟩
  | some s =>
      exact ⟨keys_mapDelete_nodup _ _ hnd, fun p hp => hwf p (mem_mapDelete _ _ p hp)⟩

theorem regWF_reachable {st : SysState} (h : Reachable st) : RegWF st := by
  induction h with
  | init => exact regWF_init
  | step _ hs ih =>
      cases hs with
      | create n u r => exact regWF_create n u r _ ih
      | event c ev => exact regWF_event c ev _ ih
      | disconnect sid => exact regWF_disconnect sid _ ih

/-! ### Call context lemmas -/

theorem resolveP_of_settled (p : PromiseState) (sid : String) (q : Option String)
    (h : p ≠ .pending) : resolveP p sid q = p := by
  cases p with
  | pending => exact absurd rfl h
  | resolved a b => rfl
  | rejected m => rfl

theorem rejectP_of_settled (p : PromiseState) (msg : String)
    (h : p ≠ .pending) : rejectP p msg = p := by
  cases p with
  | pending => exact absurd rfl h
  | resolved a b => rfl
  | rejected m => rfl

theorem handleEvent_names (c : CallCtx) (st : SysState) (ev : ConnEvent) :
    (handleEvent c st ev).1.sessionName = c.sessionName ∧
    (handleEvent c st ev).1.userId = c.userId := by
  cases ev with
  | qr payload => by_cases hq : c.qrCodeGenerated <;> simp [handleEvent, hq]
  | connOpen => exact ⟨rfl, rfl⟩
  | connClose code =>
      by_cases hc : code = DisconnectReason_loggedOut <;> simp [handleEvent, hc]
  | qrTimeoutFire => by_cases hq : c.qrCodeGenerated <;> simp [handleEvent, hq]

theorem handleEvent_ctx_of_flag (c : CallCtx) (st : SysState) (ev : ConnEvent)
    (h : c.qrCodeGenerated = true) : (handleEvent c st ev).1 = c := by
  cases ev with
  | qr payload => simp [handleEvent, h]
  | connOpen => rfl
  | connClose code =>
      by_cases hc : code = DisconnectReason_loggedOut <;> simp [handleEvent, hc]
  | qrTimeoutFire => simp [handleEvent, h]

theorem handleEvent_ctx_of_other (c : CallCtx) (st : SysState) (ev : ConnEvent)
    (h1 : ev.isQr = false) (h2 : ev.isTimeoutFire = false) :
    (handleEvent c st ev).1 = c := by
  cases ev with
  | qr payload => simp [ConnEvent.isQr] at h1
  | connOpen => rfl
  | connClose code =>
      by_cases hc : code = DisconnectReason_loggedOut <;> simp [handleEvent, hc]
  | qrTimeoutFire => simp [ConnEvent.isTimeoutFire] at h2

theorem handleEvent_promise_of_settled (c : CallCtx) (st : SysState) (ev : ConnEvent)
    (h : c.promise ≠ .pending) : (handleEvent c st ev).1.promise = c.promise := by
  cases ev with
  | qr payload =>
      by_cases hq : c.qrCodeGenerated
      · simp [handleEvent, hq]
      · simp [handleEvent, hq, resolveP_of_settled c.promise _ _ h]
  | connOpen => rfl
  | connClose code =>
      by_cases hc : code = DisconnectReason_loggedOut <;> simp [handleEvent, hc]
  | qrTimeoutFire =>
      by_cases hq : c.qrCodeGenerated
      · simp [handleEvent, hq]
      · simp [handleEvent, hq, rejectP_of_settled c.promise _ h]

theorem runEvents_nil (p : CallCtx × SysState) : runEvents p [] = p := rfl

theorem runEvents_cons (p : CallCtx × SysState) (e : ConnEvent) (rest : List ConnEvent) :
    runEvents p (e :: rest) = runEvents (handleEvent p.1 p.2 e) rest := rfl

theorem runEvents_append (p : CallCtx × SysState) (xs ys : List ConnEvent) :
    runEvents p (xs ++ ys) = runEvents (runEvents p xs) ys := by
  simp [runEvents, List.foldl_append]

theorem runEvents_ctx_of_other (evs : List ConnEvent) (p : CallCtx × SysState)
    (h : ∀ e ∈ evs, e.isQr = false ∧ e.isTimeoutFire = false) :
    (runEvents p evs).1 = p.1 := by
  induction evs generalizing p with
  | nil => rfl
  | cons e rest ih =>
      have he := h e (by simp)
      rw [runEvents_cons, ih _ (fun x hx => h x (by simp [hx])),
        handleEvent_ctx_of_other _ _ _ he.1 he.2]

theorem runEvents_ctx_of_flag (evs : List ConnEvent) (p : CallCtx × SysState)
    (h : p.1.qrCodeGenerated = true) : (runEvents p evs).1 = p.1 := by
  induction evs generalizing p with
  | nil => rfl
  | cons e rest ih =>
      rw [runEvents_cons]
      have hc := handleEvent_ctx_of_flag p.1 p.2 e h
      rw [ih _ (by rw [hc]; exact h), hc]

theorem runEvents_promise_of_settled (evs : List ConnEvent) (p : CallCtx × SysState)
    (h : p.1.promise ≠ .pending) : (runEvents p evs).1.promise = p.1.promise := by
  induction evs generalizing p with
  | nil => rfl
  | cons e rest ih =>
      rw [runEvents_cons]
      have hc := handleEvent_promise_of_settled p.1 p.2 e h
      rw [ih _ (by rw [hc]; exact h), hc]

/-! ### Further helper lemmas -/

/-- Running one pending setTimeout callback: a recreate task re-invokes
createWhatsAppBot with the captured arguments (email.ts lines 102-104);
a QR timeout task is delivered as the qrTimeoutFire event of its call
and does not touch the process state. -/
def runScheduledTask (t : ScheduledTask) (r : Option Nat) (st : SysState) : SysState :=
  match t with
  | .recreate n u _ => (createWhatsAppBot n u r st).2
  | .qrTimeout _ _ _ => st

theorem mapGet_mem (m : List (String × BotSession)) (k : String) (s : BotSession)
    (h : mapGet m k = some s) : (k, s) ∈ m := by
  induction m with
  | nil => simp [mapGet] at h
  | cons hd tl ih =>
      obtain ⟨k1, v1⟩ := hd
      by_cases h1 : k1 = k
      · simp only [mapGet, if_pos h1] at h
        simp [← h1, ← Option.some_inj.mp h]
      · simp only [mapGet, if_neg h1] at h
        exact List.mem_cons_of_mem _ (ih h)

theorem mem_mapDelete_key (m : List (String × BotSession)) (k : String)
    (p : String × BotSession) (hp : p ∈ mapDelete m k) : p.1 ≠ k := by
  induction m with
  | nil => simp [mapDelete] at hp
  | cons hd tl ih =>
      obtain ⟨k1, v1⟩ := hd
      by_cases h1 : k1 = k
      · simp only [mapDelete, if_pos h1] at hp
        exact ih hp
      · simp only [mapDelete, if_neg h1, List.mem_cons] at hp
        rcases hp with h | h
        · rw [h]
          exact h1
        · exact ih h

theorem keys_mapSet_of_mem (m : List (String × BotSession)) (k : String) (v : BotSession)
    (hk : k ∈ m.map Prod.fst) : (mapSet m k v).map Prod.fst = m.map Prod.fst := by
  induction m with
  | nil => simp at hk
  | cons hd tl ih =>
      obtain ⟨k1, v1⟩ := hd
      by_cases h1 : k1 = k
      · simp [mapSet, h1]
      · simp only [List.map_cons, List.mem_cons] at hk
        rcases hk with h | h
        · exact absurd h.symm h1
        · simp [mapSet, h1, ih h]

theorem mem_ensureAuthDir (fs : List String) (d : String) : d ∈ ensureAuthDir fs d := by
  unfold ensureAuthDir
  split_ifs with h
  · exact h
  · simp

theorem ensureAuthDir_of_mem (fs : List String) (d : String) (h : d ∈ fs) :
    ensureAuthDir fs d = fs := by
  unfold ensureAuthDir
  exact if_pos h

theorem handleEvent_entry_socket (c : CallCtx) (st : SysState) (ev : ConnEvent)
    (hev : ev.isLogoutClose = false) (sock : Nat)
    (hs : ∃ s, mapGet st.activeSessions (mkSessionId c.userId c.sessionName) = some s ∧
          s.socket = sock) :
    ∃ s, mapGet (handleEvent c st ev).2.activeSessions
        (mkSessionId c.userId c.sessionName) = some s ∧ s.socket = sock := by
  obtain ⟨s, hget, hsock⟩ := hs
  cases ev with
  | qr payload =>
      by_cases hq : c.qrCodeGenerated <;> simp [handleEvent, hq] <;> exact ⟨s, hget, hsock⟩
  | connOpen =>
      refine ⟨{ s with isConnected := true }, ?_, hsock⟩
      show mapGet (setConnected st.activeSessions _) _ = _
      rw [mapGet_setConnected_self, hget]
      rfl
  | connClose code =>
      have hc : ¬ code = DisconnectReason_loggedOut := by
        simpa [ConnEvent.isLogoutClose] using hev
      simp only [handleEvent, if_neg hc]
      exact ⟨s, hget, hsock⟩
  | qrTimeoutFire =>
      by_cases hq : c.qrCodeGenerated <;> simp [handleEvent, hq] <;> exact ⟨s, hget, hsock⟩

theorem runEvents_entry_socket (evs : List ConnEvent) (p : CallCtx × SysState)
    (hev : ∀ e ∈ evs, e.isLogoutClose = false) (sock : Nat)
    (hs : ∃ s, mapGet p.2.activeSessions (mkSessionId p.1.userId p.1.sessionName)
          = some s ∧ s.socket = sock) :
    ∃ s, mapGet (runEvents p evs).2.activeSessions
        (mkSessionId p.1.userId p.1.sessionName) = some s ∧ s.socket = sock := by
  induction evs generalizing p with
  | nil => exact hs
  | cons e rest ih =>
      rw [runEvents_cons]
      have hnames := handleEvent_names p.1 p.2 e
      have hstep := handleEvent_entry_socket p.1 p.2 e (hev e (by simp)) sock hs
      have hrec := ih (handleEvent p.1 p.2 e) (fun x hx => hev x (by simp [hx]))
        (by rw [hnames.1, hnames.2]; exact hstep)
      rw [hnames.1, hnames.2] at hrec
      exact hrec

theorem handleEvent_absent_preserved (c : CallCtx) (st : SysState) (ev : ConnEvent)
    (sid : String) (h : mapGet st.activeSessions sid = none) :
    mapGet (handleEvent c st ev).2.activeSessions sid = none := by
  cases ev with
  | qr payload => by_cases hq : c.qrCodeGenerated <;> simp [handleEvent, hq] <;> exact h
  | connOpen =>
      show mapGet (setConnected st.activeSessions (mkSessionId c.userId c.sessionName)) sid = none
      by_cases hk : sid = mkSessionId c.userId c.sessionName
      · subst hk
        rw [mapGet_setConnected_self, h]
        rfl
      · rw [mapGet_setConnected_ne _ _ _ hk]
        exact h
  | connClose code =>
      by_cases hc : code = DisconnectReason_loggedOut
      · simp only [handleEvent, if_pos hc]
        by_cases hk : sid = mkSessionId c.userId c.sessionName
        · subst hk
          exact mapGet_mapDelete_self _ _
        · show mapGet (mapDelete st.activeSessions (mkSessionId c.userId c.sessionName)) sid = none
          rw [mapGet_mapDelete_ne _ _ _ hk]
          exact h
      · simp only [handleEvent, if_neg hc]
        exact h
  | qrTimeoutFire => by_cases hq : c.qrCodeGenerated <;> simp [handleEvent, hq] <;> exact h

/-! ### Claims -/

/-- C1: a createWhatsAppBot call resolves its pairing artifact exactly
once: if the transport emits a first QR event before the 10 second
timer fires (pre holds no qr event and no timer firing), the promise of
the call settles to that first artifact, and whatever the transport
emits afterwards (further QR regenerations, the timer, other events)
never changes the settled result of the same call. -/
theorem c1_pairing_artifact_resolved_once
    (n u : String) (sock : Nat) (st : SysState) (pre post : List ConnEvent) (payload : String)
    (hpre : ∀ e ∈ pre, e.isQr = false ∧ e.isTimeoutFire = false) :
    (runEvents (initCtx n u, (createWhatsAppBot n u (some sock) st).2)
        (pre ++ ConnEvent.qr payload :: post)).1.promise
      = PromiseState.resolved (mkSessionId u n) (some payload) := by
  rw [show pre ++ ConnEvent.qr payload :: post = (pre ++ [ConnEvent.qr payload]) ++ post by simp,
    runEvents_append, runEvents_append, runEvents_cons]
  set q := runEvents (initCtx n u, (createWhatsAppBot n u (some sock) st).2) pre with hq
  have hctx : q.1 = initCtx n u := runEvents_ctx_of_other pre _ hpre
  have hstep : (handleEvent q.1 q.2 (ConnEvent.qr payload)).1
      = { sessionName := n, userId := u, qrCodeGenerated := true,
          promise := PromiseState.resolved (mkSessionId u n) (some payload) } := by
    rw [hctx]
    simp [handleEvent, initCtx, resolveP]
  have hflag : (handleEvent q.1 q.2 (ConnEvent.qr payload)).1.qrCodeGenerated = true := by
    rw [hstep]
  rw [runEvents_nil, runEvents_ctx_of_flag post _ hflag, hstep]

theorem c1_pairing_artifact_resolved_once_witness :
    (runEvents (initCtx "mybot" "user-1", (createWhatsAppBot "mybot" "user-1" (some 7) initState).2)
        ([ConnEvent.connOpen] ++ ConnEvent.qr "QR1"
          :: [ConnEvent.qr "QR2", ConnEvent.qrTimeoutFire])).1.promise
      = PromiseState.resolved (mkSessionId "user-1" "mybot") (some "QR1") :=
  c1_pairing_artifact_resolved_once "mybot" "user-1" 7 initState [ConnEvent.connOpen]
    [ConnEvent.qr "QR2", ConnEvent.qrTimeoutFire] "QR1" (by decide)

/-- C2: createWhatsAppBot arms a 10000 ms timer, and when the transport
produces no QR artifact before that timer fires (pre holds no qr event)
the promise of the call is rejected with the QR generation failure
error, and stays rejected whatever arrives later: the call neither
resolves nor hangs. -/
theorem c2_pairing_timeout_rejects
    (n u : String) (sock : Nat) (st : SysState) (pre post : List ConnEvent)
    (hpre : ∀ e ∈ pre, e.isQr = false ∧ e.isTimeoutFire = false) :
    (createWhatsAppBot n u (some sock) st).2.scheduled
        = st.scheduled ++ [ScheduledTask.qrTimeout n u 10000] ∧
    (runEvents (initCtx n u, (createWhatsAppBot n u (some sock) st).2)
        (pre ++ ConnEvent.qrTimeoutFire :: post)).1.promise
      = PromiseState.rejected "Failed to generate QR code" := by
  refine ⟨rfl, ?_⟩
  rw [show pre ++ ConnEvent.qrTimeoutFire :: post
        = (pre ++ [ConnEvent.qrTimeoutFire]) ++ post by simp,
    runEvents_append, runEvents_append, runEvents_cons]
  set q := runEvents (initCtx n u, (createWhatsAppBot n u (some sock) st).2) pre with hq
  have hctx : q.1 = initCtx n u := runEvents_ctx_of_other pre _ hpre
  have hstep : (handleEvent q.1 q.2 ConnEvent.qrTimeoutFire).1
      = { sessionName := n, userId := u, qrCodeGenerated := false,
          promise := PromiseState.rejected "Failed to generate QR code" } := by
    rw [hctx]
    simp [handleEvent, initCtx, rejectP]
  have hset : (handleEvent q.1 q.2 ConnEvent.qrTimeoutFire).1.promise ≠ PromiseState.pending := by
    rw [hstep]
    simp
  rw [runEvents_nil, runEvents_promise_of_settled post _ hset, hstep]

theorem c2_pairing_timeout_rejects_witness :
    (createWhatsAppBot "mybot" "user-1" (some 7) initState).2.scheduled
        = initState.scheduled ++ [ScheduledTask.qrTimeout "mybot" "user-1" 10000] ∧
    (runEvents (initCtx "mybot" "user-1", (createWhatsAppBot "mybot" "user-1" (some 7) initState).2)
        ([ConnEvent.connOpen] ++ ConnEvent.qrTimeoutFire :: [ConnEvent.qr "late"])).1.promise
      = PromiseState.rejected "Failed to generate QR code" :=
  c2_pairing_timeout_rejects "mybot" "user-1" 7 initState [ConnEvent.connOpen]
    [ConnEvent.qr "late"] (by decide)

/-- C3: when makeWASocket throws, the promise executor aborts before the
registry write, so the registry entry is not created at all; when a
socket handle was opened and the call then fails with the QR timeout
(pre holds no qr, no timer firing and no logout close), the promise is
rejected but the registry entry for the sessionId is still present and
still holds the opened handle, left for the retry loop rather than
deleted out from under the live socket. -/
theorem c3_no_dangling_entry_without_handle
    (n u : String) (sock : Nat) (st : SysState) (pre : List ConnEvent)
    (hpre : ∀ e ∈ pre, e.isQr = false ∧ e.isTimeoutFire = false ∧ e.isLogoutClose = false) :
    (createWhatsAppBot n u none st).2.activeSessions = st.activeSessions ∧
    (runEvents (initCtx n u, (createWhatsAppBot n u (some sock) st).2)
        (pre ++ [ConnEvent.qrTimeoutFire])).1.promise
      = PromiseState.rejected "Failed to generate QR code" ∧
    ∃ s, mapGet (runEvents (initCtx n u, (createWhatsAppBot n u (some sock) st).2)
        (pre ++ [ConnEvent.qrTimeoutFire])).2.activeSessions (mkSessionId u n)
          = some s ∧ s.socket = sock := by
  refine ⟨rfl, ?_, ?_⟩
  · rw [runEvents_append, runEvents_cons]
    set q := runEvents (initCtx n u, (createWhatsAppBot n u (some sock) st).2) pre with hq
    have hctx : q.1 = initCtx n u :=
      runEvents_ctx_of_other pre _ (fun e he => ⟨(hpre e he).1, (hpre e he).2.1⟩)
    have hstep : (handleEvent q.1 q.2 ConnEvent.qrTimeoutFire).1
        = { sessionName := n, userId := u, qrCodeGenerated := false,
            promise := PromiseState.rejected "Failed to generate QR code" } := by
      rw [hctx]
      simp [handleEvent, initCtx, rejectP]
    rw [runEvents_nil, hstep]
  · have hev : ∀ e ∈ pre ++ [ConnEvent.qrTimeoutFire], e.isLogoutClose = false := by
      intro e he
      rcases List.mem_append.mp he with h | h
      · exact (hpre e h).2.2
      · simp only [List.mem_singleton] at h
        rw [h]
        rfl
    have hinit : ∃ s, mapGet (createWhatsAppBot n u (some sock) st).2.activeSessions
        (mkSessionId (initCtx n u).userId (initCtx n u).sessionName) = some s ∧ s.socket = sock := by
      refine ⟨{ sessionId := mkSessionId u n, socket := sock, qrCode := none,
                isConnected := false, userId := u }, ?_, rfl⟩
      exact mapGet_mapSet_self _ _ _
    exact runEvents_entry_socket (pre ++ [ConnEvent.qrTimeoutFire])
      (initCtx n u, (createWhatsAppBot n u (some sock) st).2) hev sock hinit

theorem c3_no_dangling_entry_without_handle_witness :
    (createWhatsAppBot "mybot" "user-1" none initState).2.activeSessions
        = initState.activeSessions ∧
    (runEvents (initCtx "mybot" "user-1", (createWhatsAppBot "mybot" "user-1" (some 7) initState).2)
        ([ConnEvent.connClose 500] ++ [ConnEvent.qrTimeoutFire])).1.promise
      = PromiseState.rejected "Failed to generate QR code" ∧
    ∃ s, mapGet (runEvents (initCtx "mybot" "user-1",
        (createWhatsAppBot "mybot" "user-1" (some 7) initState).2)
        ([ConnEvent.connClose 500] ++ [ConnEvent.qrTimeoutFire])).2.activeSessions
        (mkSessionId "user-1" "mybot") = some s ∧ s.socket = 7 :=
  c3_no_dangling_entry_without_handle "mybot" "user-1" 7 initState
    [ConnEvent.connClose 500] (by decide)

/-- C4 scenario: a session is created, its connection opens (the stored
isConnected flag becomes true), then the connection closes with the
transient (non logout) status code 500. -/
def c4Run : CallCtx × SysState :=
  runEvents (initCtx "mybot" "user-1",
      (createWhatsAppBot "mybot" "user-1" (some 7) initState).2)
    [ConnEvent.connOpen, ConnEvent.connClose 500]

/-- C4 counterexample: right after the transient close event is
processed, getSessionStatus still reports isConnected = true for the
session; the close branch of the handler (email.ts lines 100-104) never
writes isConnected = false, contradicting the claim that the flag is
false immediately after the closure. -/
theorem c4_counterexample :
    (getSessionStatus "user-1-mybot" c4Run.2).map BotSession.isConnected = some true ∧
    ¬ (getSessionStatus "user-1-mybot" c4Run.2).map BotSession.isConnected = some false := by
  decide

/-- C4 amended: processing a connection close event with a non logout
reason leaves the registry, and so the stored isConnected flag,
completely unchanged; the handler only schedules the 5 second
re-creation, and the flag reads false only once that re-creation
replaces the entry with a fresh one whose isConnected is false. -/
theorem c4_amended_transient_close_keeps_flag
    (c : CallCtx) (st : SysState) (code : Nat) (sock : Nat)
    (h : code ≠ DisconnectReason_loggedOut) :
    (handleEvent c st (ConnEvent.connClose code)).2.activeSessions = st.activeSessions ∧
    (handleEvent c st (ConnEvent.connClose code)).2.scheduled
      = st.scheduled ++ [ScheduledTask.recreate c.sessionName c.userId 5000] ∧
    (getSessionStatus (mkSessionId c.userId c.sessionName)
        (runScheduledTask (ScheduledTask.recreate c.sessionName c.userId 5000) (some sock)
          (handleEvent c st (ConnEvent.connClose code)).2)).map BotSession.isConnected
      = some false := by
  refine ⟨by simp [handleEvent, h], by simp [handleEvent, h], ?_⟩
  show (mapGet (mapSet _ _ _) _).map BotSession.isConnected = some false
  rw [mapGet_mapSet_self]
  rfl

theorem c4_amended_transient_close_keeps_flag_witness :
    (handleEvent (initCtx "mybot" "user-1") initState (ConnEvent.connClose 500)).2.activeSessions
        = initState.activeSessions ∧
    (handleEvent (initCtx "mybot" "user-1") initState (ConnEvent.connClose 500)).2.scheduled
      = initState.scheduled ++ [ScheduledTask.recreate "mybot" "user-1" 5000] ∧
    (getSessionStatus (mkSessionId "user-1" "mybot")
        (runScheduledTask (ScheduledTask.recreate "mybot" "user-1" 5000) (some 7)
          (handleEvent (initCtx "mybot" "user-1") initState
            (ConnEvent.connClose 500)).2)).map BotSession.isConnected
      = some false :=
  c4_amended_transient_close_keeps_flag (initCtx "mybot" "user-1") initState 500 7 (by decide)

/-- C5: processing a close event whose reason is the authenticated
logout status code removes the session from the registry and schedules
nothing: getSessionStatus on the sessionId then returns none, no entry
produced by getActiveSessions carries that sessionId, and the pending
timer list is untouched (no reconnection scheduled). -/
theorem c5_logout_close_removes_session
    (c : CallCtx) (st : SysState) (h : Reachable st) :
    getSessionStatus (mkSessionId c.userId c.sessionName)
        (handleEvent c st (ConnEvent.connClose DisconnectReason_loggedOut)).2 = none ∧
    (∀ s ∈ getActiveSessions
        (handleEvent c st (ConnEvent.connClose DisconnectReason_loggedOut)).2,
      s.sessionId ≠ mkSessionId c.userId c.sessionName) ∧
    (handleEvent c st (ConnEvent.connClose DisconnectReason_loggedOut)).2.scheduled
      = st.scheduled := by
  have hwf := regWF_reachable h
  refine ⟨?_, ?_, by simp [handleEvent]⟩
  · show mapGet (mapDelete st.activeSessions (mkSessionId c.userId c.sessionName)) _ = none
    exact mapGet_mapDelete_self _ _
  · intro s hs
    have hs2 : s ∈ (mapDelete st.activeSessions
        (mkSessionId c.userId c.sessionName)).map Prod.snd := by
      simpa [getActiveSessions, handleEvent] using hs
    rcases List.mem_map.mp hs2 with ⟨p, hp, hps⟩
    have hkey := mem_mapDelete_key _ _ p hp
    have hfld := (hwf.2 p (mem_mapDelete _ _ p hp)).1
    rw [← hps, hfld]
    exact hkey

theorem c5_logout_close_removes_session_witness :
    getSessionStatus (mkSessionId "user-1" "mybot")
        (handleEvent (initCtx "mybot" "user-1")
          (createWhatsAppBot "mybot" "user-1" (some 7) initState).2
          (ConnEvent.connClose DisconnectReason_loggedOut)).2 = none ∧
    (∀ s ∈ getActiveSessions
        (handleEvent (initCtx "mybot" "user-1")
          (createWhatsAppBot "mybot" "user-1" (some 7) initState).2
          (ConnEvent.connClose DisconnectReason_loggedOut)).2,
      s.sessionId ≠ mkSessionId "user-1" "mybot") ∧
    (handleEvent (initCtx "mybot" "user-1")
        (createWhatsAppBot "mybot" "user-1" (some 7) initState).2
        (ConnEvent.connClose DisconnectReason_loggedOut)).2.scheduled
      = (createWhatsAppBot "mybot" "user-1" (some 7) initState).2.scheduled :=
  c5_logout_close_removes_session (initCtx "mybot" "user-1")
    (createWhatsAppBot "mybot" "user-1" (some 7) initState).2
    (Reachable.step Reachable.init (Step.create "mybot" "user-1" (some 7) initState))

/-- C6: a close event with any non logout reason schedules a full
re-creation with the same sessionName and userId after the fixed
5000 ms delay, and once that scheduled task runs (re-invoking
createWhatsAppBot) a later connection open event sets isConnected back
to true for the sessionId without any new createSession call from the
caller. -/
theorem c6_transient_close_schedules_recreate
    (c : CallCtx) (st : SysState) (code sock : Nat)
    (h : code ≠ DisconnectReason_loggedOut) :
    (handleEvent c st (ConnEvent.connClose code)).2.scheduled
      = st.scheduled ++ [ScheduledTask.recreate c.sessionName c.userId 5000] ∧
    getSessionStatus (mkSessionId c.userId c.sessionName)
        (handleEvent (initCtx c.sessionName c.userId)
          (runScheduledTask (ScheduledTask.recreate c.sessionName c.userId 5000) (some sock)
            (handleEvent c st (ConnEvent.connClose code)).2)
          ConnEvent.connOpen).2
      = some { sessionId := mkSessionId c.userId c.sessionName, socket := sock,
               qrCode := none, isConnected := true, userId := c.userId } := by
  refine ⟨by simp [handleEvent, h], ?_⟩
  show (mapGet (setConnected (mapSet _ _ _) _) _) = _
  have hkey : mkSessionId (initCtx c.sessionName c.userId).userId
      (initCtx c.sessionName c.userId).sessionName = mkSessionId c.userId c.sessionName := rfl
  rw [hkey, mapGet_setConnected_self, mapGet_mapSet_self]
  rfl

theorem c6_transient_close_schedules_recreate_witness :
    (handleEvent (initCtx "mybot" "user-1") initState (ConnEvent.connClose 500)).2.scheduled
      = initState.scheduled ++ [ScheduledTask.recreate "mybot" "user-1" 5000] ∧
    getSessionStatus (mkSessionId "user-1" "mybot")
        (handleEvent (initCtx "mybot" "user-1")
          (runScheduledTask (ScheduledTask.recreate "mybot" "user-1" 5000) (some 7)
            (handleEvent (initCtx "mybot" "user-1") initState (ConnEvent.connClose 500)).2)
          ConnEvent.connOpen).2
      = some { sessionId := mkSessionId "user-1" "mybot", socket := 7,
               qrCode := none, isConnected := true, userId := "user-1" } :=
  c6_transient_close_schedules_recreate (initCtx "mybot" "user-1") initState 500 7 (by decide)

/-- disconnectBot for any sessionId keeps an already absent sessionId
absent from the registry. -/
theorem disconnectBot_absent_preserved (sid sid2 : String) (st : SysState)
    (h : mapGet st.activeSessions sid = none) :
    mapGet (disconnectBot sid2 st).2.activeSessions sid = none := by
  unfold disconnectBot
  cases hget : mapGet st.activeSessions sid2 with
  | none => exact h
  | some s2 =>
      show mapGet (mapDelete st.activeSessions sid2) sid = none
      by_cases hk : sid = sid2
      · subst hk
        exact mapGet_mapDelete_self _ _
      · rw [mapGet_mapDelete_ne _ _ _ hk]
        exact h

/-- Concrete registry entries used to exhibit Map.set replacement. -/
def c8entryOld : BotSession :=
  { sessionId := "user-1-mybot", socket := 7, qrCode := none,
    isConnected := false, userId := "user-1" }

/-- The replacing entry: same key, fresh socket handle. -/
def c8entryNew : BotSession :=
  { sessionId := "user-1-mybot", socket := 8, qrCode := none,
    isConnected := false, userId := "user-1" }

/-- C7: disconnectBot on an absent sessionId returns false and changes
nothing (it is a total function, so it cannot throw); on a present
sessionId it returns true, calls end() on the stored socket handle,
removes the registry entry, and getSessionStatus then returns none and
keeps returning none across any further handler events and disconnect
calls, until a new creation re-inserts the sessionId. -/
theorem c7_disconnect_semantics (sid : String) (st : SysState) :
    (mapGet st.activeSessions sid = none → disconnectBot sid st = (false, st)) ∧
    (∀ s, mapGet st.activeSessions sid = some s →
      (disconnectBot sid st).1 = true ∧
      (disconnectBot sid st).2.closedSockets = st.closedSockets ++ [s.socket] ∧
      getSessionStatus sid (disconnectBot sid st).2 = none ∧
      (∀ c ev, getSessionStatus sid
          (handleEvent c (disconnectBot sid st).2 ev).2 = none) ∧
      (∀ sid2, getSessionStatus sid (disconnectBot sid2 (disconnectBot sid st).2).2 = none)) := by
  constructor
  · intro hnone
    simp [disconnectBot, hnone]
  · intro s hs
    have habsent : getSessionStatus sid (disconnectBot sid st).2 = none := by
      simp only [disconnectBot, hs, getSessionStatus]
      exact mapGet_mapDelete_self _ _
    refine ⟨by simp [disconnectBot, hs], by simp [disconnectBot, hs], habsent, ?_, ?_⟩
    · intro c ev
      exact handleEvent_absent_preserved c _ ev sid habsent
    · intro sid2
      exact disconnectBot_absent_preserved sid sid2 _ habsent

theorem c7_disconnect_semantics_witness :
    disconnectBot "ghost" initState = (false, initState) ∧
    (disconnectBot "user-1-mybot"
        (createWhatsAppBot "mybot" "user-1" (some 7) initState).2).1 = true ∧
    (disconnectBot "user-1-mybot"
        (createWhatsAppBot "mybot" "user-1" (some 7) initState).2).2.closedSockets
      = (createWhatsAppBot "mybot" "user-1" (some 7) initState).2.closedSockets
          ++ [c8entryOld.socket] ∧
    getSessionStatus "user-1-mybot"
      (disconnectBot "user-1-mybot"
        (createWhatsAppBot "mybot" "user-1" (some 7) initState).2).2 = none ∧
    getSessionStatus "user-1-mybot"
      (handleEvent (initCtx "mybot" "user-1")
        (disconnectBot "user-1-mybot"
          (createWhatsAppBot "mybot" "user-1" (some 7) initState).2).2
        ConnEvent.connOpen).2 = none ∧
    getSessionStatus "user-1-mybot"
      (disconnectBot "other"
        (disconnectBot "user-1-mybot"
          (createWhatsAppBot "mybot" "user-1" (some 7) initState).2).2).2 = none := by
  have h2 := (c7_disconnect_semantics "user-1-mybot"
      (createWhatsAppBot "mybot" "user-1" (some 7) initState).2).2 c8entryOld (by decide)
  exact ⟨(c7_disconnect_semantics "ghost" initState).1 (by decide),
    h2.1, h2.2.1, h2.2.2.1, h2.2.2.2.1 (initCtx "mybot" "user-1") ConnEvent.connOpen,
    h2.2.2.2.2 "other"⟩

/-- C8: in every reachable state the registry holds at most one entry
per sessionId (its key list has no duplicates), and a Map.set on a key
that is already present replaces the existing entry instead of
duplicating it: the key list is unchanged and lookup yields the new
value. -/
theorem c8_at_most_one_entry_per_session
    (st : SysState) (h : Reachable st)
    (m : List (String × BotSession)) (k : String) (v : BotSession)
    (hk : k ∈ m.map Prod.fst) :
    (st.activeSessions.map Prod.fst).Nodup ∧
    (mapSet m k v).map Prod.fst = m.map Prod.fst ∧
    mapGet (mapSet m k v) k = some v :=
  ⟨(regWF_reachable h).1, keys_mapSet_of_mem m k v hk, mapGet_mapSet_self m k v⟩

theorem c8_at_most_one_entry_per_session_witness :
    ((createWhatsAppBot "mybot" "user-1" (some 8)
        (createWhatsAppBot "mybot" "user-1" (some 7) initState).2).2.activeSessions.map
          Prod.fst).Nodup ∧
    (mapSet [("user-1-mybot", c8entryOld)] "user-1-mybot" c8entryNew).map Prod.fst
      = [("user-1-mybot", c8entryOld)].map Prod.fst ∧
    mapGet (mapSet [("user-1-mybot", c8entryOld)] "user-1-mybot" c8entryNew) "user-1-mybot"
      = some c8entryNew :=
  c8_at_most_one_entry_per_session _
    (Reachable.step (Reachable.step Reachable.init
        (Step.create "mybot" "user-1" (some 7) initState))
      (Step.create "mybot" "user-1" (some 8)
        (createWhatsAppBot "mybot" "user-1" (some 7) initState).2))
    _ _ _ (by decide)

/-- C9: the sessionId is the pure function userId ++ "-" ++ sessionName
of the call arguments alone, so two calls with equal inputs use the
same registry key and resolve the same sessionId whatever the rest of
the state is; the credential storage is the single directory
cwd/auth_sessions/sessionId, whose final component is the literal
sessionId, registered on disk by the call and left alone if it already
exists. -/
theorem c9_session_id_and_auth_dir
    (n u payload : String) (sock : Nat) (st : SysState) :
    mkSessionId u n = u ++ "-" ++ n ∧
    mapGet (createWhatsAppBot n u (some sock) st).2.activeSessions (mkSessionId u n)
      = some { sessionId := mkSessionId u n, socket := sock, qrCode := none,
               isConnected := false, userId := u } ∧
    (runEvents (initCtx n u, (createWhatsAppBot n u (some sock) st).2)
        [ConnEvent.qr payload]).1.promise
      = PromiseState.resolved (mkSessionId u n) (some payload) ∧
    authDirOf st.cwd (mkSessionId u n) = st.cwd ++ "/auth_sessions/" ++ mkSessionId u n ∧
    authDirOf st.cwd (mkSessionId u n) ∈ (createWhatsAppBot n u (some sock) st).2.fs ∧
    (authDirOf st.cwd (mkSessionId u n) ∈ st.fs →
      (createWhatsAppBot n u (some sock) st).2.fs = st.fs) := by
  refine ⟨rfl, mapGet_mapSet_self _ _ _, ?_, rfl, ?_, ?_⟩
  · rw [runEvents_cons, runEvents_nil]
    simp [handleEvent, initCtx, resolveP]
  · exact mem_ensureAuthDir st.fs _
  · intro hmem
    exact ensureAuthDir_of_mem st.fs _ hmem

theorem c9_session_id_and_auth_dir_witness :
    mkSessionId "user-1" "mybot" = "user-1" ++ "-" ++ "mybot" ∧
    mapGet (createWhatsAppBot "mybot" "user-1" (some 8)
        (createWhatsAppBot "mybot" "user-1" (some 7) initState).2).2.activeSessions
        (mkSessionId "user-1" "mybot")
      = some { sessionId := mkSessionId "user-1" "mybot", socket := 8, qrCode := none,
               isConnected := false, userId := "user-1" } ∧
    (runEvents (initCtx "mybot" "user-1",
        (createWhatsAppBot "mybot" "user-1" (some 8)
          (createWhatsAppBot "mybot" "user-1" (some 7) initState).2).2)
        [ConnEvent.qr "QR1"]).1.promise
      = PromiseState.resolved (mkSessionId "user-1" "mybot") (some "QR1") ∧
    authDirOf (createWhatsAppBot "mybot" "user-1" (some 7) initState).2.cwd
        (mkSessionId "user-1" "mybot")
      = (createWhatsAppBot "mybot" "user-1" (some 7) initState).2.cwd
          ++ "/auth_sessions/" ++ mkSessionId "user-1" "mybot" ∧
    authDirOf (createWhatsAppBot "mybot" "user-1" (some 7) initState).2.cwd
        (mkSessionId "user-1" "mybot")
      ∈ (createWhatsAppBot "mybot" "user-1" (some 8)
          (createWhatsAppBot "mybot" "user-1" (some 7) initState).2).2.fs ∧
    (authDirOf (createWhatsAppBot "mybot" "user-1" (some 7) initState).2.cwd
        (mkSessionId "user-1" "mybot")
        ∈ (createWhatsAppBot "mybot" "user-1" (some 7) initState).2.fs →
      (createWhatsAppBot "mybot" "user-1" (some 8)
          (createWhatsAppBot "mybot" "user-1" (some 7) initState).2).2.fs
        = (createWhatsAppBot "mybot" "user-1" (some 7) initState).2.fs) :=
  c9_session_id_and_auth_dir "mybot" "user-1" "QR1" 8
    (createWhatsAppBot "mybot" "user-1" (some 7) initState).2

/-- C10: in every reachable state every registry entry has qrCode equal
to none (the entry is registered without the artifact and no handler
ever writes it), so getSessionStatus never exposes a pairing artifact:
the artifact is observable only through the promise resolved by
createWhatsAppBot itself. -/
theorem c10_registry_never_stores_artifact
    (st : SysState) (h : Reachable st) :
    (∀ p ∈ st.activeSessions, p.2.qrCode = none) ∧
    (∀ sid s, getSessionStatus sid st = some s → s.qrCode = none) := by
  have hwf := regWF_reachable h
  refine ⟨fun p hp => (hwf.2 p hp).2, fun sid s hs => ?_⟩
  exact (hwf.2 (sid, s) (mapGet_mem st.activeSessions sid s hs)).2

theorem c10_registry_never_stores_artifact_witness :
    (∀ p ∈ (handleEvent (initCtx "mybot" "user-1")
        (createWhatsAppBot "mybot" "user-1" (some 7) initState).2
        ConnEvent.connOpen).2.activeSessions, p.2.qrCode = none) ∧
    (∀ sid s, getSessionStatus sid
        (handleEvent (initCtx "mybot" "user-1")
          (createWhatsAppBot "mybot" "user-1" (some 7) initState).2
          ConnEvent.connOpen).2 = some s → s.qrCode = none) :=
  c10_registry_never_stores_artifact _
    (Reachable.step (Reachable.step Reachable.init
        (Step.create "mybot" "user-1" (some 7) initState))
      (Step.event (initCtx "mybot" "user-1") ConnEvent.connOpen
        (createWhatsAppBot "mybot" "user-1" (some 7) initState).2))
